import Mathlib

/-!
Shallow embedding of flare's LAMMPS on-the-fly learner
(`src/flare/learners/lmpotf.py`): the `transform_stress` helper and the
`LMPOTF` class (constructor, `run_dft`, `step`).

External collaborators are supplied as explicit inputs: the LAMMPS
marshalling (positions, cell, types, step index) and the DFT calculator
result arrive in a `StepInput`; file writes (`std_xyz_fname`,
`dft_xyz_fname`), the wandb telemetry sink and the `lmp.command` call are
pure side effects with no controller state and are not tracked.  The
fallible operations of a step (the oracle call and the surrogate-model
mutations) can be made to raise through a `Faults` record, which models
exactly the exception points of the Python code: an exception aborts the
remaining Python statements, leaving every mutation made so far in place,
and is logged and re-raised by the `except` block of `step`
(lines 239-245).

Floating-point numbers are modelled as real numbers; the comparisons the
Python code performs on them are classically decidable.
-/

open scoped Classical

/-- An atomic structure as built at lmpotf.py line 153, with the optional
training labels that `run_dft` may attach (lines 262-267). -/
structure FlareStructure where
  positions : List (List ℝ)
  types : List ℕ
  forces : Option (List ℝ)
  energy : Option (List ℝ)
  stresses : Option (List ℝ)

/-- The state of the `SparseGP` surrogate model, as far as lmpotf.py touches
it: the hyperparameter vector (index 0 is the noise parameter `sigma`) and
the append-only record of training-set mutations
(`add_training_structure`, `add_random_environments`,
`add_specific_environments`) together with the count of
`update_matrices_QR` refits. -/
structure SGPState where
  hyperparameters : List ℝ
  training_structures : List FlareStructure
  random_env_adds : List (FlareStructure × ℕ)
  specific_env_adds : List (FlareStructure × List ℕ)
  qr_updates : ℕ

/-- `sparse_gp.add_training_structure(structure)`. -/
def add_training_structure (gp : SGPState) (st : FlareStructure) : SGPState :=
  { gp with training_structures := gp.training_structures ++ [st] }

/-- `sparse_gp.add_random_environments(structure, [n])` (lmpotf.py line 158). -/
def add_random_environments (gp : SGPState) (st : FlareStructure) (n : ℕ) : SGPState :=
  { gp with random_env_adds := gp.random_env_adds ++ [(st, n)] }

/-- `sparse_gp.add_specific_environments(structure, atoms)` (lines 195-197). -/
def add_specific_environments (gp : SGPState) (st : FlareStructure) (atoms : List ℕ) :
    SGPState :=
  { gp with specific_env_adds := gp.specific_env_adds ++ [(st, atoms)] }

/-- `sparse_gp.update_matrices_QR()`. -/
def update_matrices_QR (gp : SGPState) : SGPState :=
  { gp with qr_updates := gp.qr_updates + 1 }

/-- The mutable state of an `LMPOTF` object: the owned surrogate model, the
configuration knobs read by `run_dft`/`step`, the counters
(`dft_calls`, `last_dft_call`), the last written checkpoint
(`save`, line 125-126, models `write_mapping_coefficients`) and the log
stream. -/
structure LMPOTFState where
  sparse_gp : SGPState
  energy_correction : List ℝ
  force_training : Bool
  energy_training : Bool
  stress_training : Bool
  dft_call_threshold : ℝ
  dft_add_threshold : ℝ
  dft_calls : ℕ
  last_dft_call : ℤ
  checkpoint : Option SGPState
  log : List String

/-- `self.logger.info(...)` / `self.logger.exception(...)`: append one line
to the log stream. -/
def logInfo (s : LMPOTFState) (m : String) : LMPOTFState :=
  { s with log := s.log ++ [m] }

/-- `self.save(self.model_fname)` (lines 125-126): persist the current
model's mapping coefficients as the checkpoint. -/
def LMPOTF.save (s : LMPOTFState) : LMPOTFState :=
  { s with checkpoint := some s.sparse_gp }

/-- `LMPOTF.__init__` (lines 67-123).  The only eager validation is the
assertion `len(self.energy_correction) == self.ntypes` (line 102); an
`AssertionError` is modelled as `none`.  Counters start at
`dft_calls = 0`, `last_dft_call = -100` (lines 110-111). -/
def LMPOTF.init (sparse_gp : SGPState) (type2number : List ℕ)
    (energy_correction : List ℝ)
    (force_training energy_training stress_training : Bool)
    (dft_call_threshold dft_add_threshold : ℝ) : Option LMPOTFState :=
  if energy_correction.length = type2number.length then
    some { sparse_gp := sparse_gp
           energy_correction := energy_correction
           force_training := force_training
           energy_training := energy_training
           stress_training := stress_training
           dft_call_threshold := dft_call_threshold
           dft_add_threshold := dft_add_threshold
           dft_calls := 0
           last_dft_call := -100
           checkpoint := none
           log := [] }
  else none

/-- `transform_stress` (lmpotf.py lines 9-19): the negated six
upper-triangular entries of the 3x3 stress tensor, in row-major order. -/
def transform_stress (stress : Fin 3 → Fin 3 → ℝ) : List ℝ :=
  [-stress 0 0, -stress 0 1, -stress 0 2, -stress 1 1, -stress 1 2, -stress 2 2]

/-- What the ASE calculator (`self.dftcalc`) returns inside `run_dft`:
`get_potential_energy`, `get_forces` (natoms x 3) and
`get_stress(voigt=False)` (3x3). -/
structure OracleResult where
  pe : ℝ
  F : List (List ℝ)
  stress : Fin 3 → Fin 3 → ℝ

/-- The outcome of `run_dft`: its return value `(pe, F)` plus the mutated
structure and the mutated controller state. -/
structure RunDftResult where
  pe : ℝ
  F : List (List ℝ)
  struct : FlareStructure
  state : LMPOTFState

/-- `LMPOTF.run_dft` (lines 247-271): correct the oracle energy by the
per-species offsets, attach the enabled training labels to the structure,
then increment `dft_calls` and record `last_dft_call = step`.  The three
calculator calls all happen before any mutation, so oracle failure is a
single exception point before `run_dft` (handled by the caller). -/
def LMPOTF.run_dft (s : LMPOTFState) (types : List ℕ) (stepIdx : ℤ)
    (st : FlareStructure) (orc : OracleResult) : RunDftResult :=
  let pe := orc.pe - (types.map (fun t => s.energy_correction.getD (t - 1) 0)).sum
  let st1 := if s.force_training then { st with forces := some orc.F.flatten } else st
  let st2 := if s.energy_training then { st1 with energy := some [pe] } else st1
  let st3 := if s.stress_training then
      { st2 with stresses := some (transform_stress orc.stress) } else st2
  { pe := pe
    F := orc.F
    struct := st3
    state := { s with dft_calls := s.dft_calls + 1, last_dft_call := stepIdx } }

/-- One exception point of a step: which Python call raised. -/
inductive StepErr where
  | oracleFail
  | addStructFail
  | addEnvsFail
  | qrFail
  | saveFail

/-- Failure injection for the fallible operations of one step. -/
structure Faults where
  oracleFail : Bool
  addStructFail : Bool
  addEnvsFail : Bool
  qrFail : Bool
  saveFail : Bool

/-- A step in which every fallible operation succeeds. -/
def noFaults : Faults := ⟨false, false, false, false, false⟩

/-- The per-step data marshalled from LAMMPS (lines 141-152) plus the
oracle answer and the hyperparameter-optimization policy outcome for this
step (`hyperparameter_optimization(self, lmp, step)` and the
hyperparameters the optimizer would leave behind). -/
structure StepInput where
  natoms : ℕ
  positions : List (List ℝ)
  types : List ℕ
  stepIdx : ℤ
  variances : List ℝ
  oracle : OracleResult
  hyp_opt : Bool
  opt_hyps : List ℝ

/-- The structure built at line 153, before any training labels. -/
def initialStructure (inp : StepInput) : FlareStructure :=
  { positions := inp.positions
    types := inp.types
    forces := none
    energy := none
    stresses := none }

/-- The per-atom uncertainty score of line 166:
`stds = np.sqrt(np.abs(variances)) / sigma`, one entry at a time. -/
noncomputable def uncertaintyScore (v sigma : ℝ) : ℝ :=
  Real.sqrt |v| / sigma

/-- Lines 163-166: `sigma = self.sparse_gp.hyperparameters[0]` and the
per-atom score vector. -/
noncomputable def stepStds (s : LMPOTFState) (inp : StepInput) : List ℝ :=
  inp.variances.map (fun v => uncertaintyScore v (s.sparse_gp.hyperparameters.headD 0))

/-- Line 178: `call_dft = np.any(stds > self.dft_call_threshold)`. -/
def call_dft (stds : List ℝ) (t : ℝ) : Prop :=
  ∃ x ∈ stds, x > t

/-- Line 193:
`atoms_to_be_added = np.arange(natoms)[stds > self.dft_add_threshold]`. -/
noncomputable def atoms_to_be_added (stds : List ℝ) (natoms : ℕ) (t : ℝ) : List ℕ :=
  (List.range natoms).filter (fun i => decide (stds.getD i 0 > t))

/-- The bootstrap branch of `step` (lines 154-160, entered iff
`dft_calls == 0`): log, call the oracle, add the full structure and 16
random environments, refit, persist.  Never reads the variances. -/
def bootstrapStep (s : LMPOTFState) (inp : StepInput) (f : Faults) :
    LMPOTFState × Option StepErr :=
  let s0 := logInfo s "Initial step, calling DFT"
  if f.oracleFail then (s0, some .oracleFail) else
  let r := LMPOTF.run_dft s0 inp.types inp.stepIdx (initialStructure inp) inp.oracle
  let s1 := r.state
  if f.addStructFail then (s1, some .addStructFail) else
  let s2 := { s1 with sparse_gp := add_training_structure s1.sparse_gp r.struct }
  if f.addEnvsFail then (s2, some .addEnvsFail) else
  let s3 := { s2 with sparse_gp := add_random_environments s2.sparse_gp r.struct 16 }
  if f.qrFail then (s3, some .qrFail) else
  let s4 := { s3 with sparse_gp := update_matrices_QR s3.sparse_gp }
  if f.saveFail then (s4, some .saveFail) else
  (LMPOTF.save s4, none)

/-- The oracle-query sub-step of the steady branch (lines 179-225):
diagnostics and logs, `run_dft`, selection of the atoms whose score
exceeds `dft_add_threshold`, training-set additions, QR refit, optional
hyperparameter optimization, persist.  The `predict_DTC` diagnostics
(lines 180-191) are pure reads of the model and leave no controller
state. -/
noncomputable def oracleSubStep (s : LMPOTFState) (inp : StepInput) (f : Faults)
    (stds : List ℝ) : LMPOTFState × Option StepErr :=
  let s0 := logInfo (logInfo s "Max force uncertainty") "DFT call"
  if f.oracleFail then (s0, some .oracleFail) else
  let r := LMPOTF.run_dft s0 inp.types inp.stepIdx (initialStructure inp) inp.oracle
  let s1 := r.state
  let atoms := atoms_to_be_added stds inp.natoms s1.dft_add_threshold
  if f.addStructFail then (s1, some .addStructFail) else
  let s2 := { s1 with sparse_gp := add_training_structure s1.sparse_gp r.struct }
  if f.addEnvsFail then (s2, some .addEnvsFail) else
  let s3 := { s2 with sparse_gp := add_specific_environments s2.sparse_gp r.struct atoms }
  if f.qrFail then (s3, some .qrFail) else
  let s4 := { s3 with sparse_gp := update_matrices_QR s3.sparse_gp }
  let s5 := if inp.hyp_opt then
      { s4 with
        sparse_gp := { s4.sparse_gp with hyperparameters := inp.opt_hyps }
        log := s4.log ++ ["Optimizing hyperparameters"] }
    else s4
  if f.saveFail then (s5, some .saveFail) else
  (LMPOTF.save s5, none)

/-- The steady branch of `step` (lines 161-238, entered iff
`dft_calls != 0`): compute the per-atom scores, log the diagnostics, and
query the oracle iff some score strictly exceeds `dft_call_threshold`;
otherwise only diagnostics happen. -/
noncomputable def steadyStep (s : LMPOTFState) (inp : StepInput) (f : Faults) :
    LMPOTFState × Option StepErr :=
  let stds := stepStds s inp
  let s1 := logInfo (logInfo s "Step") "Max uncertainty"
  if call_dft stds s.dft_call_threshold then oracleSubStep s1 inp f stds
  else (s1, none)

/-- The `try` block of `LMPOTF.step` (lines 140-238). -/
noncomputable def LMPOTF.stepBody (s : LMPOTFState) (inp : StepInput) (f : Faults) :
    LMPOTFState × Option StepErr :=
  if s.dft_calls = 0 then bootstrapStep s inp f else steadyStep s inp f

/-- `LMPOTF.step` (lines 128-245): run the body; on an exception, log
`LMPOTF ERROR` with the stack context and re-raise the same exception
(lines 239-245). -/
noncomputable def LMPOTF.step (s : LMPOTFState) (inp : StepInput) (f : Faults) :
    LMPOTFState × Option StepErr :=
  match LMPOTF.stepBody s inp f with
  | (sB, none) => (sB, none)
  | (sB, some e) => (logInfo sB "LMPOTF ERROR", some e)

/-- A run: iterate `step` over a sequence of per-step inputs and fault
patterns. -/
noncomputable def runSteps (s : LMPOTFState) (l : List (StepInput × Faults)) :
    LMPOTFState :=
  l.foldl (fun st p => (LMPOTF.step st p.1 p.2).1) s

/-! ### Basic projection lemmas -/

@[simp] lemma logInfo_sparse_gp (s : LMPOTFState) (m : String) :
    (logInfo s m).sparse_gp = s.sparse_gp := rfl

@[simp] lemma logInfo_dft_calls (s : LMPOTFState) (m : String) :
    (logInfo s m).dft_calls = s.dft_calls := rfl

@[simp] lemma logInfo_last_dft_call (s : LMPOTFState) (m : String) :
    (logInfo s m).last_dft_call = s.last_dft_call := rfl

@[simp] lemma logInfo_checkpoint (s : LMPOTFState) (m : String) :
    (logInfo s m).checkpoint = s.checkpoint := rfl

@[simp] lemma logInfo_call_threshold (s : LMPOTFState) (m : String) :
    (logInfo s m).dft_call_threshold = s.dft_call_threshold := rfl

@[simp] lemma logInfo_add_threshold (s : LMPOTFState) (m : String) :
    (logInfo s m).dft_add_threshold = s.dft_add_threshold := rfl

@[simp] lemma logInfo_log (s : LMPOTFState) (m : String) :
    (logInfo s m).log = s.log ++ [m] := rfl

@[simp] lemma stepStds_logInfo (s : LMPOTFState) (inp : StepInput) (m : String) :
    stepStds (logInfo s m) inp = stepStds s inp := rfl

@[simp] lemma run_dft_state_dft_calls (s : LMPOTFState) (t : List ℕ) (i : ℤ)
    (st : FlareStructure) (o : OracleResult) :
    (LMPOTF.run_dft s t i st o).state.dft_calls = s.dft_calls + 1 := rfl

@[simp] lemma run_dft_state_last (s : LMPOTFState) (t : List ℕ) (i : ℤ)
    (st : FlareStructure) (o : OracleResult) :
    (LMPOTF.run_dft s t i st o).state.last_dft_call = i := rfl

@[simp] lemma run_dft_state_sparse_gp (s : LMPOTFState) (t : List ℕ) (i : ℤ)
    (st : FlareStructure) (o : OracleResult) :
    (LMPOTF.run_dft s t i st o).state.sparse_gp = s.sparse_gp := rfl

@[simp] lemma run_dft_state_add_threshold (s : LMPOTFState) (t : List ℕ) (i : ℤ)
    (st : FlareStructure) (o : OracleResult) :
    (LMPOTF.run_dft s t i st o).state.dft_add_threshold = s.dft_add_threshold := rfl

/-! ### Relating `step` to its `try` block -/

lemma step_snd (s : LMPOTFState) (inp : StepInput) (f : Faults) :
    (LMPOTF.step s inp f).2 = (LMPOTF.stepBody s inp f).2 := by
  rcases h : LMPOTF.stepBody s inp f with ⟨sB, e⟩
  cases e <;> simp [LMPOTF.step, h]

lemma step_fst_dft_calls (s : LMPOTFState) (inp : StepInput) (f : Faults) :
    (LMPOTF.step s inp f).1.dft_calls = (LMPOTF.stepBody s inp f).1.dft_calls := by
  rcases h : LMPOTF.stepBody s inp f with ⟨sB, e⟩
  cases e <;> simp [LMPOTF.step, h]

lemma step_fst_last (s : LMPOTFState) (inp : StepInput) (f : Faults) :
    (LMPOTF.step s inp f).1.last_dft_call = (LMPOTF.stepBody s inp f).1.last_dft_call := by
  rcases h : LMPOTF.stepBody s inp f with ⟨sB, e⟩
  cases e <;> simp [LMPOTF.step, h]

lemma step_fst_sparse_gp (s : LMPOTFState) (inp : StepInput) (f : Faults) :
    (LMPOTF.step s inp f).1.sparse_gp = (LMPOTF.stepBody s inp f).1.sparse_gp := by
  rcases h : LMPOTF.stepBody s inp f with ⟨sB, e⟩
  cases e <;> simp [LMPOTF.step, h]

lemma step_fst_checkpoint (s : LMPOTFState) (inp : StepInput) (f : Faults) :
    (LMPOTF.step s inp f).1.checkpoint = (LMPOTF.stepBody s inp f).1.checkpoint := by
  rcases h : LMPOTF.stepBody s inp f with ⟨sB, e⟩
  cases e <;> simp [LMPOTF.step, h]

/-! ### Characterizing the branches of a step -/

lemma stepBody_idle (s : LMPOTFState) (inp : StepInput) (f : Faults)
    (h0 : s.dft_calls ≠ 0)
    (hq : ¬ call_dft (stepStds s inp) s.dft_call_threshold) :
    LMPOTF.stepBody s inp f = (logInfo (logInfo s "Step") "Max uncertainty", none) := by
  simp only [LMPOTF.stepBody, if_neg h0, steadyStep]
  rw [if_neg hq]

lemma stepBody_bootstrap_calls (s : LMPOTFState) (inp : StepInput) (f : Faults)
    (h0 : s.dft_calls = 0) (hf : f.oracleFail = false) :
    (LMPOTF.stepBody s inp f).1.dft_calls = s.dft_calls + 1 ∧
    (LMPOTF.stepBody s inp f).1.last_dft_call = inp.stepIdx := by
  simp only [LMPOTF.stepBody, if_pos h0, bootstrapStep, hf, Bool.false_eq_true, if_false]
  split_ifs <;>
    simp [LMPOTF.save, add_training_structure, add_random_environments, update_matrices_QR]

lemma stepBody_triggered_calls (s : LMPOTFState) (inp : StepInput) (f : Faults)
    (h0 : s.dft_calls ≠ 0)
    (hq : call_dft (stepStds s inp) s.dft_call_threshold)
    (hf : f.oracleFail = false) :
    (LMPOTF.stepBody s inp f).1.dft_calls = s.dft_calls + 1 ∧
    (LMPOTF.stepBody s inp f).1.last_dft_call = inp.stepIdx := by
  simp only [LMPOTF.stepBody, if_neg h0, steadyStep]
  rw [if_pos hq]
  simp only [oracleSubStep, hf, Bool.false_eq_true, if_false]
  split_ifs <;>
    simp [LMPOTF.save, add_training_structure, add_specific_environments, update_matrices_QR]

lemma stepBody_oracleFail (s : LMPOTFState) (inp : StepInput) (f : Faults)
    (hf : f.oracleFail = true)
    (htrig : s.dft_calls = 0 ∨ call_dft (stepStds s inp) s.dft_call_threshold) :
    (LMPOTF.stepBody s inp f).1.dft_calls = s.dft_calls ∧
    (LMPOTF.stepBody s inp f).1.last_dft_call = s.last_dft_call := by
  by_cases h0 : s.dft_calls = 0
  · simp [LMPOTF.stepBody, h0, bootstrapStep, hf]
  · have hq := htrig.resolve_left h0
    simp only [LMPOTF.stepBody, if_neg h0, steadyStep]
    rw [if_pos hq]
    simp [oracleSubStep, hf]

lemma stepBody_mono (s : LMPOTFState) (inp : StepInput) (f : Faults) :
    s.dft_calls ≤ (LMPOTF.stepBody s inp f).1.dft_calls := by
  by_cases h0 : s.dft_calls = 0
  · simp [h0]
  · by_cases hq : call_dft (stepStds s inp) s.dft_call_threshold
    · simp only [LMPOTF.stepBody, if_neg h0, steadyStep]
      rw [if_pos hq]
      simp only [oracleSubStep]
      split_ifs <;>
        simp [LMPOTF.save, add_training_structure, add_specific_environments,
          update_matrices_QR]
    · rw [stepBody_idle s inp f h0 hq]
      simp

lemma step_mono (s : LMPOTFState) (inp : StepInput) (f : Faults) :
    s.dft_calls ≤ (LMPOTF.step s inp f).1.dft_calls := by
  rw [step_fst_dft_calls]
  exact stepBody_mono s inp f

lemma runSteps_mono (l : List (StepInput × Faults)) (s0 : LMPOTFState) :
    s0.dft_calls ≤ (runSteps s0 l).dft_calls := by
  induction l generalizing s0 with
  | nil => simp [runSteps]
  | cons p t ih =>
      have h1 := step_mono s0 p.1 p.2
      have h2 := ih (LMPOTF.step s0 p.1 p.2).1
      simpa [runSteps] using le_trans h1 h2

/-! ### The uncertainty scores, seen through the raw variances -/

lemma call_dft_stepStds_iff (s : LMPOTFState) (inp : StepInput) :
    call_dft (stepStds s inp) s.dft_call_threshold ↔
      ∃ v ∈ inp.variances,
        Real.sqrt |v| / s.sparse_gp.hyperparameters.headD 0 > s.dft_call_threshold := by
  simp [call_dft, stepStds, uncertaintyScore]

lemma mem_atoms_to_be_added (stds : List ℝ) (natoms : ℕ) (t : ℝ) (i : ℕ) :
    i ∈ atoms_to_be_added stds natoms t ↔ i < natoms ∧ stds.getD i 0 > t := by
  simp [atoms_to_be_added, List.mem_filter, List.mem_range]

lemma stepStds_getD (s : LMPOTFState) (inp : StepInput) (i : ℕ)
    (hi : i < inp.variances.length) :
    (stepStds s inp).getD i 0
      = uncertaintyScore (inp.variances.getD i 0) (s.sparse_gp.hyperparameters.headD 0) := by
  unfold stepStds
  rw [List.getD_eq_getElem _ _ (by simpa using hi), List.getElem_map,
    List.getD_eq_getElem _ _ hi]

lemma stepBody_triggered_specific (s : LMPOTFState) (inp : StepInput)
    (h0 : s.dft_calls ≠ 0)
    (hq : call_dft (stepStds s inp) s.dft_call_threshold) :
    ((LMPOTF.stepBody s inp noFaults).1.sparse_gp.specific_env_adds).map Prod.snd
      = (s.sparse_gp.specific_env_adds).map Prod.snd ++
        [atoms_to_be_added (stepStds s inp) inp.natoms s.dft_add_threshold] := by
  simp only [LMPOTF.stepBody, if_neg h0, steadyStep]
  rw [if_pos hq]
  simp only [oracleSubStep, noFaults, Bool.false_eq_true, if_false]
  cases h : inp.hyp_opt <;>
    simp [h, LMPOTF.save, add_training_structure, add_specific_environments,
      update_matrices_QR]

/-! ### Concrete instances used by the counterexamples and witnesses -/

/-- A surrogate model whose noise hyperparameter is 1. -/
def cexGP : SGPState :=
  { hyperparameters := [1]
    training_structures := []
    random_env_adds := []
    specific_env_adds := []
    qr_updates := 0 }

/-- A steady-state controller (7 oracle calls made) whose thresholds are 0,
so that a variance of 1 (score `sqrt 1 / 1 = 1`) triggers a query. -/
def cexState : LMPOTFState :=
  { sparse_gp := cexGP
    energy_correction := [0]
    force_training := true
    energy_training := true
    stress_training := true
    dft_call_threshold := 0
    dft_add_threshold := 0
    dft_calls := 7
    last_dft_call := 3
    checkpoint := none
    log := [] }

/-- The same controller with a call threshold of 2, which a score of 1 does
not exceed. -/
def idleState : LMPOTFState :=
  { cexState with dft_call_threshold := 2 }

/-- The same controller before its first oracle call. -/
def freshState : LMPOTFState :=
  { cexState with dft_calls := 0 }

/-- A one-atom oracle answer. -/
def cexOracle : OracleResult :=
  { pe := 0, F := [[0, 0, 0]], stress := fun _ _ => 0 }

/-- A one-atom step input whose single variance is 1, at step index 5. -/
def cexInput : StepInput :=
  { natoms := 1
    positions := [[0, 0, 0]]
    types := [1]
    stepIdx := 5
    variances := [1]
    oracle := cexOracle
    hyp_opt := false
    opt_hyps := [] }

/-- A step in which `update_matrices_QR` raises and everything else
succeeds. -/
def qrFault : Faults := ⟨false, false, false, true, false⟩

lemma cex_stds : stepStds cexState cexInput = [1] := by
  simp [stepStds, cexState, cexInput, cexGP, uncertaintyScore]

lemma cex_call : call_dft (stepStds cexState cexInput) cexState.dft_call_threshold := by
  rw [cex_stds]
  exact ⟨1, by simp, by norm_num [cexState]⟩

lemma idle_not_call :
    ¬ call_dft (stepStds idleState cexInput) idleState.dft_call_threshold := by
  have h : stepStds idleState cexInput = [1] := cex_stds
  rw [h]
  rintro ⟨x, hx, hgt⟩
  simp only [List.mem_singleton] at hx
  subst hx
  norm_num [idleState, cexState] at hgt

lemma cex_body :
    (LMPOTF.stepBody cexState cexInput qrFault).2 = some StepErr.qrFail ∧
    (LMPOTF.stepBody cexState cexInput qrFault).1.dft_calls = 8 ∧
    (LMPOTF.stepBody cexState cexInput qrFault).1.last_dft_call = 5 := by
  have h0 : cexState.dft_calls ≠ 0 := by norm_num [cexState]
  simp only [LMPOTF.stepBody, if_neg h0, steadyStep]
  rw [if_pos cex_call]
  simp [oracleSubStep, qrFault, cexState, cexInput, add_training_structure,
    add_specific_environments]

/-! ### The claims -/

/-- C1: for every step made while `dft_calls = 0` the bootstrap branch runs:
the oracle is invoked unconditionally — whenever the oracle itself does not
raise, `dft_calls` is 1 afterwards, whatever happens later in the step —
and no uncertainty score is evaluated: the step's outcome is independent of
the variance vector. -/
theorem C1_bootstrap_unconditional (s : LMPOTFState) (inp : StepInput)
    (h : s.dft_calls = 0) :
    (∀ f : Faults, f.oracleFail = false → (LMPOTF.step s inp f).1.dft_calls = 1) ∧
    (∀ (f : Faults) (v : List ℝ),
      LMPOTF.step s { inp with variances := v } f = LMPOTF.step s inp f) := by
  constructor
  · intro f hf
    rw [step_fst_dft_calls]
    have hc := (stepBody_bootstrap_calls s inp f h hf).1
    rw [hc, h]
  · intro f v
    have hb : bootstrapStep s { inp with variances := v } f = bootstrapStep s inp f := rfl
    simp [LMPOTF.step, LMPOTF.stepBody, h, hb]

/-- C1 witness: a freshly bootstrapped controller makes its first oracle
call on a concrete input and ends the successful step with `dft_calls = 1`. -/
theorem C1_witness :
    (LMPOTF.step freshState cexInput noFaults).1.dft_calls = 1 :=
  (C1_bootstrap_unconditional freshState cexInput rfl).1 noFaults rfl

/-- C2: `dft_calls` never decreases across any step or any sequence of
steps; a step that triggers an oracle call (the bootstrap step, or a steady
step whose query decision is true) and whose oracle call returns increments
it by exactly 1; a steady step whose query decision is false leaves it
unchanged. -/
theorem C2_dft_calls_monotone (s : LMPOTFState) (inp : StepInput) (f : Faults) :
    s.dft_calls ≤ (LMPOTF.step s inp f).1.dft_calls ∧
    (f.oracleFail = false →
      (s.dft_calls = 0 ∨ call_dft (stepStds s inp) s.dft_call_threshold) →
      (LMPOTF.step s inp f).1.dft_calls = s.dft_calls + 1) ∧
    (0 < s.dft_calls → ¬ call_dft (stepStds s inp) s.dft_call_threshold →
      (LMPOTF.step s inp f).1.dft_calls = s.dft_calls) ∧
    ∀ (l : List (StepInput × Faults)) (s0 : LMPOTFState),
      s0.dft_calls ≤ (runSteps s0 l).dft_calls := by
  refine ⟨step_mono s inp f, ?_, ?_, fun l s0 => runSteps_mono l s0⟩
  · intro hf htrig
    rw [step_fst_dft_calls]
    rcases htrig with h0 | hq
    · exact (stepBody_bootstrap_calls s inp f h0 hf).1
    · by_cases h0 : s.dft_calls = 0
      · exact (stepBody_bootstrap_calls s inp f h0 hf).1
      · exact (stepBody_triggered_calls s inp f h0 hq hf).1
  · intro hpos hq
    rw [step_fst_dft_calls, stepBody_idle s inp f (by omega) hq]
    simp

/-- C2 witness: on a concrete triggered steady step the counter is both
non-decreasing and incremented by exactly 1. -/
theorem C2_witness :
    cexState.dft_calls ≤ (LMPOTF.step cexState cexInput noFaults).1.dft_calls ∧
    (LMPOTF.step cexState cexInput noFaults).1.dft_calls = cexState.dft_calls + 1 :=
  ⟨(C2_dft_calls_monotone cexState cexInput noFaults).1,
   (C2_dft_calls_monotone cexState cexInput noFaults).2.1 rfl (Or.inr cex_call)⟩

/-- C3 counterexample: at a concrete steady state whose query decision is
true, injecting a failure in `update_matrices_QR` (the model refit, after
the oracle call succeeded) makes the step raise `qrFail` while `dft_calls`
has already been incremented from 7 to 8 and `last_dft_call` has already
been set to the step index 5: the counters are not left unchanged when the
refit raises after the oracle call. -/
theorem C3_counterexample :
    (LMPOTF.step cexState cexInput qrFault).2 = some StepErr.qrFail ∧
    (LMPOTF.step cexState cexInput qrFault).1.dft_calls = cexState.dft_calls + 1 ∧
    (LMPOTF.step cexState cexInput qrFault).1.last_dft_call = 5 ∧
    cexState.last_dft_call ≠ 5 := by
  refine ⟨?_, ?_, ?_, by norm_num [cexState]⟩
  · rw [step_snd]
    exact cex_body.1
  · rw [step_fst_dft_calls, cex_body.2.1]
    norm_num [cexState]
  · rw [step_fst_last]
    exact cex_body.2.2

/-- C3 amended: the counters are mutated at the end of `run_dft`, after the
oracle computations succeed but before the training-data addition and the
`update_matrices_QR` refit: on any oracle-triggered step, if the oracle
itself raises the counters are unchanged, and once the oracle returns the
counters are committed (`dft_calls + 1`, `last_dft_call = step`) regardless
of whether the subsequent training-data addition or refit raises. -/
theorem C3_counters_follow_oracle (s : LMPOTFState) (inp : StepInput) (f : Faults)
    (htrig : s.dft_calls = 0 ∨ call_dft (stepStds s inp) s.dft_call_threshold) :
    (f.oracleFail = true →
      (LMPOTF.step s inp f).1.dft_calls = s.dft_calls ∧
      (LMPOTF.step s inp f).1.last_dft_call = s.last_dft_call) ∧
    (f.oracleFail = false →
      (LMPOTF.step s inp f).1.dft_calls = s.dft_calls + 1 ∧
      (LMPOTF.step s inp f).1.last_dft_call = inp.stepIdx) := by
  constructor
  · intro hf
    rw [step_fst_dft_calls, step_fst_last]
    exact stepBody_oracleFail s inp f hf htrig
  · intro hf
    rw [step_fst_dft_calls, step_fst_last]
    rcases htrig with h0 | hq
    · exact stepBody_bootstrap_calls s inp f h0 hf
    · by_cases h0 : s.dft_calls = 0
      · exact stepBody_bootstrap_calls s inp f h0 hf
      · exact stepBody_triggered_calls s inp f h0 hq hf

/-- C3 witness (for the amended claim): with the refit failing on a concrete
triggered step, the counters were committed anyway. -/
theorem C3_witness :
    (LMPOTF.step cexState cexInput qrFault).1.dft_calls = cexState.dft_calls + 1 ∧
    (LMPOTF.step cexState cexInput qrFault).1.last_dft_call = cexInput.stepIdx :=
  (C3_counters_follow_oracle cexState cexInput qrFault (Or.inr cex_call)).2 rfl

/-- C4: in the steady state the decision to query the oracle is true iff
some atom's score `sqrt |variance| / sigma` strictly exceeds
`dft_call_threshold` (strict inequality as the boundary): on a fault-free
steady step, `dft_calls` is incremented iff some score exceeds the
threshold, and unchanged iff none does — a score equal to the threshold
does not trigger. -/
theorem C4_threshold_boundary (s : LMPOTFState) (inp : StepInput)
    (h : 0 < s.dft_calls) :
    (((LMPOTF.step s inp noFaults).1.dft_calls = s.dft_calls + 1) ↔
      ∃ v ∈ inp.variances,
        Real.sqrt |v| / s.sparse_gp.hyperparameters.headD 0 > s.dft_call_threshold) ∧
    (((LMPOTF.step s inp noFaults).1.dft_calls = s.dft_calls) ↔
      ¬ ∃ v ∈ inp.variances,
        Real.sqrt |v| / s.sparse_gp.hyperparameters.headD 0 > s.dft_call_threshold) := by
  have h0 : s.dft_calls ≠ 0 := by omega
  have key : (LMPOTF.step s inp noFaults).1.dft_calls
      = if call_dft (stepStds s inp) s.dft_call_threshold then s.dft_calls + 1
        else s.dft_calls := by
    rw [step_fst_dft_calls]
    by_cases hq : call_dft (stepStds s inp) s.dft_call_threshold
    · rw [if_pos hq]
      exact (stepBody_triggered_calls s inp noFaults h0 hq rfl).1
    · rw [if_neg hq, stepBody_idle s inp noFaults h0 hq]
      rfl
  rw [key, ← call_dft_stepStds_iff s inp]
  by_cases hq : call_dft (stepStds s inp) s.dft_call_threshold
  · rw [if_pos hq]
    refine ⟨⟨fun _ => hq, fun _ => rfl⟩, ⟨fun heq => absurd heq (by omega), fun hn => absurd hq hn⟩⟩
  · rw [if_neg hq]
    refine ⟨⟨fun heq => absurd heq (by omega), fun hqq => absurd hqq hq⟩, ⟨fun _ => hq, fun _ => rfl⟩⟩

/-- C4 witness: with one variance of 1, noise 1 and call threshold 0, the
score 1 exceeds the threshold and the concrete fault-free step increments
`dft_calls`. -/
theorem C4_witness :
    (LMPOTF.step cexState cexInput noFaults).1.dft_calls = cexState.dft_calls + 1 :=
  (C4_threshold_boundary cexState cexInput (by norm_num [cexState])).1.mpr
    ((call_dft_stepStds_iff cexState cexInput).mp cex_call)

/-- C5: on a fault-free oracle-triggered steady step, exactly one
specific-environment record is appended; its atom list is contained in
`{0, ..., natoms-1}`, and an atom index below `natoms` is in the list iff
its uncertainty score strictly exceeds `dft_add_threshold`. -/
theorem C5_added_atoms (s : LMPOTFState) (inp : StepInput)
    (h : 0 < s.dft_calls)
    (hq : call_dft (stepStds s inp) s.dft_call_threshold)
    (hlen : inp.variances.length = inp.natoms) :
    ((LMPOTF.step s inp noFaults).1.sparse_gp.specific_env_adds).map Prod.snd
      = (s.sparse_gp.specific_env_adds).map Prod.snd ++
        [atoms_to_be_added (stepStds s inp) inp.natoms s.dft_add_threshold] ∧
    (∀ i ∈ atoms_to_be_added (stepStds s inp) inp.natoms s.dft_add_threshold,
      i < inp.natoms) ∧
    ∀ i, i < inp.natoms →
      (i ∈ atoms_to_be_added (stepStds s inp) inp.natoms s.dft_add_threshold ↔
        uncertaintyScore (inp.variances.getD i 0)
            (s.sparse_gp.hyperparameters.headD 0) > s.dft_add_threshold) := by
  have h0 : s.dft_calls ≠ 0 := by omega
  refine ⟨?_, ?_, ?_⟩
  · rw [step_fst_sparse_gp]
    exact stepBody_triggered_specific s inp h0 hq
  · intro i hi
    exact ((mem_atoms_to_be_added _ _ _ i).mp hi).1
  · intro i hi
    rw [mem_atoms_to_be_added, stepStds_getD s inp i (by omega)]
    exact ⟨fun hx => hx.2, fun hx => ⟨hi, hx⟩⟩

/-- C5 witness: the concrete triggered step appends exactly the selected
atom list to the specific-environment records. -/
theorem C5_witness :
    ((LMPOTF.step cexState cexInput noFaults).1.sparse_gp.specific_env_adds).map Prod.snd
      = (cexState.sparse_gp.specific_env_adds).map Prod.snd ++
        [atoms_to_be_added (stepStds cexState cexInput) cexInput.natoms
          cexState.dft_add_threshold] :=
  (C5_added_atoms cexState cexInput (by norm_num [cexState]) cex_call rfl).1

/-- C6: a steady step whose scores all stay within the call threshold
mutates no controller or model state — counters, surrogate model and
checkpoint are unchanged and no error is raised — only the two diagnostic
log lines are emitted; this holds for any fault pattern since no fallible
operation is reached. -/
theorem C6_idle_frame (s : LMPOTFState) (inp : StepInput) (f : Faults)
    (h : 0 < s.dft_calls)
    (hq : ¬ call_dft (stepStds s inp) s.dft_call_threshold) :
    (LMPOTF.step s inp f).1.dft_calls = s.dft_calls ∧
    (LMPOTF.step s inp f).1.last_dft_call = s.last_dft_call ∧
    (LMPOTF.step s inp f).1.sparse_gp = s.sparse_gp ∧
    (LMPOTF.step s inp f).1.checkpoint = s.checkpoint ∧
    (LMPOTF.step s inp f).2 = none ∧
    (LMPOTF.step s inp f).1.log = s.log ++ ["Step", "Max uncertainty"] := by
  have h0 : s.dft_calls ≠ 0 := by omega
  have hb := stepBody_idle s inp f h0 hq
  have hstep : LMPOTF.step s inp f
      = (logInfo (logInfo s "Step") "Max uncertainty", none) := by
    simp [LMPOTF.step, hb]
  rw [hstep]
  refine ⟨rfl, rfl, rfl, rfl, rfl, ?_⟩
  simp [logInfo]

/-- C6 witness: a concrete idle steady step (score 1, call threshold 2)
leaves counter, model and checkpoint untouched. -/
theorem C6_witness :
    (LMPOTF.step idleState cexInput noFaults).1.dft_calls = idleState.dft_calls ∧
    (LMPOTF.step idleState cexInput noFaults).1.sparse_gp = idleState.sparse_gp ∧
    (LMPOTF.step idleState cexInput noFaults).1.checkpoint = idleState.checkpoint :=
  ⟨(C6_idle_frame idleState cexInput noFaults (by norm_num [idleState, cexState])
      idle_not_call).1,
   (C6_idle_frame idleState cexInput noFaults (by norm_num [idleState, cexState])
      idle_not_call).2.2.1,
   (C6_idle_frame idleState cexInput noFaults (by norm_num [idleState, cexState])
      idle_not_call).2.2.2.1⟩

/-- C7: the per-atom score of the steady branch is
`sqrt |variance| / sigma`, with `sigma` the model's first hyperparameter;
the absolute value is applied before the square root, so a negative
variance is scored like its magnitude and produces no error (the score is a
total function). -/
theorem C7_score_formula (s : LMPOTFState) (inp : StepInput) :
    stepStds s inp
      = inp.variances.map
          (fun v => Real.sqrt |v| / s.sparse_gp.hyperparameters.headD 0) ∧
    (∀ v sigma : ℝ, uncertaintyScore v sigma = Real.sqrt |v| / sigma) ∧
    (∀ v sigma : ℝ, uncertaintyScore (-v) sigma = uncertaintyScore v sigma) ∧
    (∀ v sigma : ℝ, v < 0 → uncertaintyScore v sigma = Real.sqrt (-v) / sigma) := by
  refine ⟨rfl, fun v sigma => rfl, ?_, ?_⟩
  · intro v sigma
    simp [uncertaintyScore]
  · intro v sigma hv
    rw [uncertaintyScore, abs_of_neg hv]

/-- C7 witness: the score of the negative variance -1 is defined and equals
`sqrt 1`. -/
theorem C7_witness :
    uncertaintyScore (-1) 1 = Real.sqrt (-(-1)) / 1 :=
  (C7_score_formula cexState cexInput).2.2.2 (-1) 1 (by norm_num)

/-- C8: the `except` block of `step` logs `LMPOTF ERROR` and re-raises the
same exception: the step's error equals the body's error (never swallowed,
never substituted), a successful body passes through untouched, and on an
exception the final state is the body's state with exactly the one
exception log line appended — no retry, no fallback result. -/
theorem C8_error_propagation (s : LMPOTFState) (inp : StepInput) (f : Faults) :
    (LMPOTF.step s inp f).2 = (LMPOTF.stepBody s inp f).2 ∧
    ((LMPOTF.stepBody s inp f).2 = none →
      LMPOTF.step s inp f = LMPOTF.stepBody s inp f) ∧
    ∀ e, (LMPOTF.stepBody s inp f).2 = some e →
      LMPOTF.step s inp f
        = (logInfo (LMPOTF.stepBody s inp f).1 "LMPOTF ERROR", some e) := by
  refine ⟨step_snd s inp f, ?_, ?_⟩
  · intro hnone
    rcases hb : LMPOTF.stepBody s inp f with ⟨sB, e⟩
    rw [hb] at hnone
    simp only at hnone
    subst hnone
    simp [LMPOTF.step, hb]
  · intro e he
    rcases hb : LMPOTF.stepBody s inp f with ⟨sB, e'⟩
    rw [hb] at he
    simp only at he
    subst he
    simp [LMPOTF.step, hb]

/-- C8 witness: on the concrete refit-failure step the error is re-raised
unchanged and the only extra effect is the exception log line. -/
theorem C8_witness :
    LMPOTF.step cexState cexInput qrFault
      = (logInfo (LMPOTF.stepBody cexState cexInput qrFault).1 "LMPOTF ERROR",
         some StepErr.qrFail) :=
  (C8_error_propagation cexState cexInput qrFault).2.2 StepErr.qrFail cex_body.1

/-- C9 counterexample: constructing a controller with
`dft_call_threshold = 0` strictly below `dft_add_threshold = 1` succeeds —
`__init__` raises no eager validation error on the threshold ordering, so
construction does not fail fast. -/
theorem C9_counterexample :
    (LMPOTF.init cexGP [1] [0] true true true 0 1).isSome = true ∧
    ((0 : ℝ) < 1) :=
  ⟨rfl, by norm_num⟩

/-- C9 amended: construction performs no validation of the threshold
ordering — a controller with `dft_call_threshold < dft_add_threshold` is
constructed successfully whenever the one eager construction-time check,
that the energy-correction vector has one entry per declared type, passes;
construction fails exactly on that length assertion, independently of the
thresholds. -/
theorem C9_no_threshold_validation (gp : SGPState) (t2n : List ℕ) (ec : List ℝ)
    (ft et st : Bool) (callT addT : ℝ) :
    (LMPOTF.init gp t2n ec ft et st callT addT).isSome ↔
      ec.length = t2n.length := by
  unfold LMPOTF.init
  split_ifs with hlen <;> simp [hlen]

/-- C10: `transform_stress` is the negation of the six upper-triangular
entries of the 3x3 stress tensor in row-major order (xx, xy, xz, yy, yz,
zz), and `run_dft` attaches exactly this vector as the structure's training
stresses iff stress training is enabled (otherwise the stresses are left as
they were). -/
theorem C10_stress_transform (stress : Fin 3 → Fin 3 → ℝ) (s : LMPOTFState)
    (types : List ℕ) (stepIdx : ℤ) (st0 : FlareStructure) (orc : OracleResult) :
    transform_stress stress
      = [-stress 0 0, -stress 0 1, -stress 0 2,
         -stress 1 1, -stress 1 2, -stress 2 2] ∧
    (LMPOTF.run_dft s types stepIdx st0 orc).struct.stresses
      = (if s.stress_training then some (transform_stress orc.stress)
         else st0.stresses) := by
  refine ⟨rfl, ?_⟩
  simp only [LMPOTF.run_dft]
  cases hf : s.force_training <;> cases he : s.energy_training <;>
    cases hs : s.stress_training <;> simp [hf, he, hs]
